import Mathlib

/-!
Shallow embedding of the pennywise monthly-report pipeline
(src/pennywise/generate_monthly_reports.py) and proofs about it.

Conventions:
- Python floats are modelled as rationals; every amount in the claims is a
  short decimal literal, on which rational arithmetic agrees with the code.
- Python dict field access item.get(k) / item.get(k, d) is modelled with
  Option String fields of a RawRecord structure (none = field absent).
- Fallible operations (filesystem mkdir, division) return Except.
-/

deriving instance DecidableEq for Except

namespace Pennywise

/-- Digits of a numeral, most significant first, folded to a natural number. -/
def digitsToNat (l : List Char) : Nat :=
  l.foldl (fun n c => 10 * n + (c.toNat - 48)) 0

/-- Embeds the currency-symbol stripping of parse_amount (lines 38-45):
the Python code applies replace with the empty string for each of the
single characters in order, which removes every occurrence of each of
those characters, i.e. filters them out of the string. -/
def stripCurrency (s : String) : String :=
  String.mk (s.data.filter (fun c => !(['₦', '$', ',', '£', '€'].contains c)))

/-- Model of the Python builtin float conversion restricted to plain decimal
numerals: an optional sign, then digits with at most one decimal point and
at least one digit.  This is the subset exercised by the repository; inputs
outside it (exponents, whitespace, inf or nan spellings) do not occur in the
claims and are treated as failing. -/
def parseUnsigned (l : List Char) : Option ℚ :=
  match l.splitOn '.' with
  | [intPart] =>
      if intPart ≠ [] ∧ intPart.all Char.isDigit then
        some (mkRat (Int.ofNat (digitsToNat intPart)) 1)
      else none
  | [intPart, fracPart] =>
      if (intPart ≠ [] ∨ fracPart ≠ []) ∧ intPart.all Char.isDigit ∧
          fracPart.all Char.isDigit then
        some (mkRat
          (Int.ofNat
            (digitsToNat intPart * 10 ^ fracPart.length + digitsToNat fracPart))
          (10 ^ fracPart.length))
      else none
  | _ => none

/-- Signed decimal conversion, the model of float(cleaned) at line 48. -/
def pyFloat (s : String) : Option ℚ :=
  match s.data with
  | [] => none
  | '-' :: rest => (parseUnsigned rest).map (fun q => -q)
  | '+' :: rest => parseUnsigned rest
  | l => parseUnsigned l

/-- Embeds parse_amount (lines 32-50): empty or missing input gives 0.0,
otherwise currency symbols and commas are stripped and the remainder is
converted; a failed conversion gives 0.0. -/
def parse_amount (amount_str : Option String) : ℚ :=
  match amount_str with
  | none => 0
  | some s =>
      if s = "" then 0
      else
        match pyFloat (stripCurrency s) with
        | some q => q
        | none => 0

/-- Leap-year rule used by the datetime module. -/
def isLeap (y : Nat) : Bool :=
  (y % 4 = 0 && y % 100 ≠ 0) || y % 400 = 0

/-- Days in a month, as validated by the datetime constructor. -/
def daysInMonth (y m : Nat) : Nat :=
  if m = 2 then (if isLeap y then 29 else 28)
  else if m = 4 ∨ m = 6 ∨ m = 9 ∨ m = 11 then 30
  else 31

/-- Calendar validity as enforced by datetime(year, month, day). -/
def validDate (y m d : Nat) : Bool :=
  1 ≤ y && y ≤ 9999 && 1 ≤ m && m ≤ 12 && 1 ≤ d && d ≤ daysInMonth y m

structure SimpleDate where
  year : Nat
  month : Nat
  day : Nat
deriving DecidableEq

/-- A two-digit-capped numeric field of strptime: the %m and %d directives
match one or two digit characters whose value lies in 1..hi (the regexes
1[0-2]|0[1-9]|[1-9] and 3[01]|[12]d|0[1-9]|[1-9]). -/
def parseField (s : List Char) (hi : Nat) : Option Nat :=
  if (s.length = 1 ∨ s.length = 2) ∧ s.all Char.isDigit then
    let n := digitsToNat s
    if 1 ≤ n ∧ n ≤ hi then some n else none
  else none

/-- The %Y directive of strptime matches exactly four digit characters. -/
def parseYearField (s : List Char) : Option Nat :=
  if s.length = 4 ∧ s.all Char.isDigit then some (digitsToNat s) else none

/-- Field order of a three-component date format. -/
inductive DateShape where
  | ymd
  | dmy
  | mdy
deriving DecidableEq

/-- A date format of the fixed list at lines 59-66: a component order and a
separator character. -/
structure DateFormat where
  shape : DateShape
  sep : Char
deriving DecidableEq

/-- The ordered format list of extract_month_from_date (lines 59-66). -/
def date_formats : List DateFormat :=
  [⟨.ymd, '-'⟩, ⟨.dmy, '/'⟩, ⟨.mdy, '/'⟩, ⟨.ymd, '/'⟩, ⟨.dmy, '-'⟩, ⟨.mdy, '-'⟩]

/-- Model of datetime.strptime(s, fmt) for the three-component formats used
here.  Because every component is a digit run and the separator is not a
digit, the strptime regex match succeeds exactly when the string splits at
the separator into three components each matching its directive, and the
resulting date passes the datetime constructor check. -/
def strptimeDate (fmt : DateFormat) (s : String) : Option SimpleDate :=
  match s.data.splitOn fmt.sep with
  | [a, b, c] =>
      let fields :=
        match fmt.shape with
        | .ymd => do
            let y ← parseYearField a
            let m ← parseField b 12
            let d ← parseField c 31
            pure (y, m, d)
        | .dmy => do
            let d ← parseField a 31
            let m ← parseField b 12
            let y ← parseYearField c
            pure (y, m, d)
        | .mdy => do
            let m ← parseField a 12
            let d ← parseField b 31
            let y ← parseYearField c
            pure (y, m, d)
      match fields with
      | some (y, m, d) => if validDate y m d then some ⟨y, m, d⟩ else none
      | none => none
  | _ => none

/-- Zero-pads a month number to two digits, as strftime %m does. -/
def pad2 (n : Nat) : String :=
  if n < 10 then "0" ++ toString n else toString n

/-- Zero-pads a year to four digits, as strftime %Y does for the years in
this development (all four-digit already). -/
def pad4 (n : Nat) : String :=
  if n < 10 then "000" ++ toString n
  else if n < 100 then "00" ++ toString n
  else if n < 1000 then "0" ++ toString n
  else toString n

/-- strftime of the canonical YYYY-MM month key (line 71). -/
def monthKey (d : SimpleDate) : String :=
  pad4 d.year ++ "-" ++ pad2 d.month

/-- Embeds extract_month_from_date (lines 53-75): missing or empty input
gives none, otherwise formats are tried in order and the month key of the
first successful parse is returned; none when all formats fail. -/
def extract_month_from_date (date_str : Option String) : Option String :=
  match date_str with
  | none => none
  | some s =>
      if s = "" then none
      else (date_formats.findSome? (fun fmt => strptimeDate fmt s)).map monthKey

/-- A raw transaction record from the store: a duck-typed mapping, modelled
with one optional field per key the code reads (none = key absent, so
item.get(k) is the field itself and item.get(k, d) is getD d). -/
structure RawRecord where
  date : Option String
  amount : Option String
  transactionType : Option String
  category : Option String
  merchant : Option String
  description : Option String
  paymentMethod : Option String
deriving DecidableEq

/-- The normalized transaction dict appended at lines 262-272. -/
structure NormalizedTransaction where
  date : String
  amount : ℚ
  type : String
  category : String
  merchant : String
  description : String
  paymentMethod : String
deriving DecidableEq

/-- Embeds one iteration of the filtering loop (lines 226-272) on a single
record: extract the month and skip on failure, skip months other than the
target, parse the amount, default category and merchant to Unknown and the
type to the lowercased transactionType, then skip unless date, amount,
category and merchant are all truthy (non-empty string, non-zero number);
otherwise produce the normalized transaction. -/
def normalizeRecord (previousMonth : String) (item : RawRecord) :
    Option NormalizedTransaction :=
  match extract_month_from_date item.date with
  | none => none
  | some month =>
      if month ≠ previousMonth then none
      else if item.date.getD "" = "" ∨ parse_amount item.amount = 0 ∨
          item.category.getD "Unknown" = "" ∨ item.merchant.getD "Unknown" = ""
      then none
      else some
        { date := item.date.getD ""
          amount := parse_amount item.amount
          type := (item.transactionType.getD "").toLower
          category := item.category.getD "Unknown"
          merchant := item.merchant.getD "Unknown"
          description := item.description.getD ""
          paymentMethod := item.paymentMethod.getD "Unknown" }

/-- The filtered per-month transaction list built by the loop at lines
226-272, in input order. -/
def filterMonthTransactions (items : List RawRecord) (previousMonth : String) :
    List NormalizedTransaction :=
  items.filterMap (normalizeRecord previousMonth)

/-- Adds v to key k of an insertion-ordered association list, the model of
defaultdict(float) update categories[k] += v. -/
def addTo (l : List (String × ℚ)) (k : String) (v : ℚ) : List (String × ℚ) :=
  match l with
  | [] => [(k, v)]
  | (k', v') :: rest =>
      if k' = k then (k', v' + v) :: rest else (k', v') :: addTo rest k v

/-- Looks a key up in an association list of running totals, defaulting to
0 like defaultdict(float). -/
def lookupAmount (l : List (String × ℚ)) (k : String) : ℚ :=
  match l with
  | [] => 0
  | (k', v) :: rest => if k' = k then v else lookupAmount rest k

/-- The mutable accumulators of the summary loop (lines 286-289). -/
structure Totals where
  total_income : ℚ
  total_expenses : ℚ
  categories : List (String × ℚ)
  merchants : List (String × ℚ)
deriving DecidableEq

/-- One iteration of the summary loop (lines 291-298): a credit adds its
signed amount to total_income; anything else adds its absolute value to
total_expenses and to the per-category and per-merchant totals. -/
def accumTxn (acc : Totals) (txn : NormalizedTransaction) : Totals :=
  if txn.type == "credit" then
    { acc with total_income := acc.total_income + txn.amount }
  else
    { acc with
        total_expenses := acc.total_expenses + |txn.amount|
        categories := addTo acc.categories txn.category |txn.amount|
        merchants := addTo acc.merchants txn.merchant |txn.amount| }

/-- The summary loop over the filtered transactions (lines 286-298). -/
def computeTotals (txns : List NormalizedTransaction) : Totals :=
  txns.foldl accumTxn ⟨0, 0, [], []⟩

/-- Stable insertion into a list sorted descending by amount: the new
element goes after every element with an amount at least as large. -/
def insertDesc (x : String × ℚ) : List (String × ℚ) → List (String × ℚ)
  | [] => [x]
  | y :: ys => if x.2 ≤ y.2 then y :: insertDesc x ys else x :: y :: ys

/-- Stable sort descending by amount, the model of
sorted(key = amount, reverse = True) at lines 304-305. -/
def sortDesc : List (String × ℚ) → List (String × ℚ)
  | [] => []
  | x :: xs => insertDesc x (sortDesc xs)

/-- Sort the running totals descending and keep the top ten
(lines 304-305). -/
def topTen (l : List (String × ℚ)) : List (String × ℚ) :=
  (sortDesc l).take 10

/-- The summary part of the report dict built at lines 300-323. -/
structure MonthlySummary where
  month : String
  total_transactions : Nat
  total_income : ℚ
  total_expenses : ℚ
  net_income : ℚ
  top_categories : List (String × ℚ)
  top_merchants : List (String × ℚ)
  transactions : List NormalizedTransaction
deriving DecidableEq

/-- Embeds the aggregation core of generate_monthly_report (lines 221-323):
filter the scanned items to the target month, short-circuit with none when
the filtered set is empty (lines 279-283), otherwise compute totals and
build the report summary with net_income = total_income - total_expenses
(lines 300-301). -/
def generate_monthly_report (items : List RawRecord) (previousMonth : String) :
    Option MonthlySummary :=
  if filterMonthTransactions items previousMonth = [] then none
  else some
    { month := previousMonth
      total_transactions := (filterMonthTransactions items previousMonth).length
      total_income :=
        (computeTotals (filterMonthTransactions items previousMonth)).total_income
      total_expenses :=
        (computeTotals (filterMonthTransactions items previousMonth)).total_expenses
      net_income :=
        (computeTotals (filterMonthTransactions items previousMonth)).total_income -
          (computeTotals (filterMonthTransactions items previousMonth)).total_expenses
      top_categories :=
        topTen (computeTotals (filterMonthTransactions items previousMonth)).categories
      top_merchants :=
        topTen (computeTotals (filterMonthTransactions items previousMonth)).merchants
      transactions := filterMonthTransactions items previousMonth }

/-- The files a run writes (line 328): one PDF per produced summary, none
when the run short-circuits at lines 279-283 before any document is built. -/
def generatedFiles (items : List RawRecord) (previousMonth : String) :
    List String :=
  match generate_monthly_report items previousMonth with
  | none => []
  | some _ => ["transaction_report_" ++ previousMonth ++ ".pdf"]

/-- Specification-side sum: the signed amounts of the credit transactions. -/
def incomeOf (txns : List NormalizedTransaction) : ℚ :=
  ((txns.filter (fun t => t.type == "credit")).map (fun t => t.amount)).sum

/-- Specification-side sum: the absolute amounts of the non-credit
transactions. -/
def expensesOf (txns : List NormalizedTransaction) : ℚ :=
  ((txns.filter (fun t => !(t.type == "credit"))).map (fun t => |t.amount|)).sum

/-- Specification-side sum: the absolute amounts of the non-credit
transactions in a given category. -/
def catExpensesOf (txns : List NormalizedTransaction) (c : String) : ℚ :=
  ((txns.filter (fun t => !(t.type == "credit") && t.category == c)).map
    (fun t => |t.amount|)).sum

/-- Specification-side sum: the absolute amounts of the non-credit
transactions at a given merchant. -/
def merchExpensesOf (txns : List NormalizedTransaction) (m : String) : ℚ :=
  ((txns.filter (fun t => !(t.type == "credit") && t.merchant == m)).map
    (fun t => |t.amount|)).sum

/-- One page of a paginated scan (lines 201-211): the Items list and the
optional LastEvaluatedKey continuation token. -/
structure ScanResponse (α : Type) where
  items : List α
  lastEvaluatedKey : Option Nat
deriving DecidableEq

/-- A paginated table: the scan call, none for the initial request and
some k for a request carrying ExclusiveStartKey k. -/
def ScanTable (α : Type) : Type :=
  Option Nat → ScanResponse α

/-- Embeds the scan loop of lines 204-212: while the previous response
carried a continuation token and fewer than max_scans = 100 requests were
made, request the next page and append its items; fuel only bounds the
recursion and is chosen so the count guard always fires first.  Returns
the accumulated items and the final scan count. -/
def scanLoop (table : ScanTable α) :
    Nat → ScanResponse α → List α → Nat → List α × Nat
  | 0, _, acc, count => (acc, count)
  | fuel + 1, response, acc, count =>
      match response.lastEvaluatedKey with
      | none => (acc, count)
      | some k =>
          if count < 100 then
            let r := table (some k)
            scanLoop table fuel r (acc ++ r.items) (count + 1)
          else (acc, count)

/-- Embeds the whole scan phase (lines 199-219): one initial request, then
the loop; scan_count starts at 1 for the initial request. -/
def scanAll (table : ScanTable α) : List α × Nat :=
  let response := table none
  scanLoop table 100 response response.items 1

/-- The warning condition at line 214: scan_count reached max_scans. -/
def scanWarning (table : ScanTable α) : Bool :=
  100 ≤ (scanAll table).2

/-- A finite table serving a fixed page list: the initial request serves
page 0, and page i links to page i + 1 while one exists. -/
def tableOfPages (pages : List (List α)) : ScanTable α :=
  fun key =>
    let i := match key with | none => 0 | some j => j
    { items := pages.getD i []
      lastEvaluatedKey := if i + 1 < pages.length then some (i + 1) else none }

/-- A pathological table that always returns a continuation token, to
exercise the page ceiling. -/
def endlessTable : ScanTable Nat :=
  fun _ => { items := [7], lastEvaluatedKey := some 0 }

/-- A filesystem state: the set of directories that exist, given as
component-path lists, the root (the empty path) always existing
implicitly. -/
abbrev FsState : Type := List (List String)

/-- Embeds output_path.mkdir(exist_ok = True) at lines 185-186, with the
semantics of pathlib.Path.mkdir without parents = True: an existing
directory is accepted (exist_ok), a directory whose parent exists is
created, and a missing parent raises FileNotFoundError — parent
directories are not created. -/
def createOutputDir (fs : FsState) (outputDir : List String) :
    Except String FsState :=
  if outputDir ∈ fs then Except.ok fs
  else if outputDir.dropLast ∈ fs ∨ outputDir.dropLast = [] then
    Except.ok (outputDir :: fs)
  else Except.error "FileNotFoundError"

/-- One entry of monthly_data consumed by generate_overall_pdf_summary. -/
structure MonthData where
  total_income : ℚ
  total_expenses : ℚ
deriving DecidableEq

/-- Python true division, raising ZeroDivisionError on a zero
denominator. -/
def pyDiv (a : ℚ) (n : Nat) : Except String ℚ :=
  if n = 0 then Except.error "ZeroDivisionError" else Except.ok (a / n)

/-- English month names as produced by strftime with the month-name
directive. -/
def monthName (m : Nat) : String :=
  ["January", "February", "March", "April", "May", "June", "July",
    "August", "September", "October", "November", "December"].getD (m - 1) ""

/-- Model of strptime(key, year-month format) at lines 564-565: a
four-digit year, a dash, and a one or two digit month. -/
def parseYearMonth (s : String) : Except String (Nat × Nat) :=
  match s.data.splitOn '-' with
  | [y, m] =>
      match parseYearField y, parseField m 12 with
      | some yv, some mv =>
          if 1 ≤ yv then Except.ok (yv, mv) else Except.error "ValueError"
      | _, _ => Except.error "ValueError"
  | _ => Except.error "ValueError"

/-- Formats a parsed year-month pair as strftime month-name-plus-year. -/
def formatMonthYear (ym : Nat × Nat) : String :=
  monthName ym.2 ++ " " ++ toString ym.1

/-- Embeds the period computation at lines 560-568: for a non-empty key
set, the span from the minimum to the maximum key rendered with month
names; the empty case takes the no-data branch. -/
def periodOf (keys : List String) : Except String String :=
  match keys with
  | [] => Except.ok "No data available"
  | k :: ks => do
      let firstMonth := ks.foldl (fun a b => if b < a then b else a) k
      let lastMonth := ks.foldl (fun a b => if a < b then b else a) k
      let s ← parseYearMonth firstMonth
      let e ← parseYearMonth lastMonth
      Except.ok (formatMonthYear s ++ " to " ++ formatMonthYear e)

/-- The overall summary fields computed at lines 523-568. -/
structure OverallSummary where
  total_months : Nat
  total_income : ℚ
  total_expenses : ℚ
  average_monthly_income : ℚ
  average_monthly_expenses : ℚ
  net_income : ℚ
  period : String
deriving DecidableEq

/-- Embeds generate_overall_pdf_summary (lines 497-568) up to document
layout: the overall_summary dict at lines 524-541 divides the income and
expense totals by len(monthly_data) before the period branch at lines
560-568 runs, so the divisions are evaluated first and their
ZeroDivisionError propagates before any document is produced. -/
def generate_overall_pdf_summary (monthly_data : List (String × MonthData)) :
    Except String OverallSummary := do
  let n := monthly_data.length
  let ti := (monthly_data.map (fun d => d.2.total_income)).sum
  let te := (monthly_data.map (fun d => d.2.total_expenses)).sum
  let avgIncome ← pyDiv ti n
  let avgExpenses ← pyDiv te n
  let period ← periodOf (monthly_data.map Prod.fst)
  Except.ok
    { total_months := n
      total_income := ti
      total_expenses := te
      average_monthly_income := avgIncome
      average_monthly_expenses := avgExpenses
      net_income := ti - te
      period := period }

/-! Helper lemmas shared by several claims. -/

lemma gen_fields {items : List RawRecord} {month : String} {s : MonthlySummary}
    (h : generate_monthly_report items month = some s) :
    s.transactions = filterMonthTransactions items month ∧
    s.total_income =
      (computeTotals (filterMonthTransactions items month)).total_income ∧
    s.total_expenses =
      (computeTotals (filterMonthTransactions items month)).total_expenses ∧
    s.net_income = s.total_income - s.total_expenses := by
  unfold generate_monthly_report at h
  split at h
  · exact absurd h (by simp)
  · rw [Option.some.injEq] at h
    subst h
    exact ⟨rfl, rfl, rfl, rfl⟩

lemma normalizeRecord_some {month : String} {item : RawRecord}
    {t : NormalizedTransaction} (h : normalizeRecord month item = some t) :
    t.amount = parse_amount item.amount ∧ t.amount ≠ 0 := by
  unfold normalizeRecord at h
  cases hx : extract_month_from_date item.date with
  | none => rw [hx] at h; exact absurd h (by simp)
  | some m =>
      rw [hx] at h
      dsimp only at h
      by_cases h1 : m ≠ month
      · rw [if_pos h1] at h
        exact absurd h (by simp)
      · rw [if_neg h1] at h
        by_cases h2 : item.date.getD "" = "" ∨ parse_amount item.amount = 0 ∨
            item.category.getD "Unknown" = "" ∨ item.merchant.getD "Unknown" = ""
        · rw [if_pos h2] at h
          exact absurd h (by simp)
        · rw [if_neg h2] at h
          rw [Option.some.injEq] at h
          subst h
          push_neg at h2
          exact ⟨rfl, h2.2.1⟩

lemma foldl_income (txns : List NormalizedTransaction) :
    ∀ acc : Totals,
      (txns.foldl accumTxn acc).total_income = acc.total_income + incomeOf txns := by
  induction txns with
  | nil => intro acc; simp [incomeOf]
  | cons t ts ih =>
      intro acc
      rw [List.foldl_cons, ih]
      cases hb : (t.type == "credit") with
      | true => simp [accumTxn, hb, incomeOf, List.filter_cons, add_assoc]
      | false => simp [accumTxn, hb, incomeOf, List.filter_cons]

lemma foldl_expenses (txns : List NormalizedTransaction) :
    ∀ acc : Totals,
      (txns.foldl accumTxn acc).total_expenses
        = acc.total_expenses + expensesOf txns := by
  induction txns with
  | nil => intro acc; simp [expensesOf]
  | cons t ts ih =>
      intro acc
      rw [List.foldl_cons, ih]
      cases hb : (t.type == "credit") with
      | true => simp [accumTxn, hb, expensesOf, List.filter_cons]
      | false => simp [accumTxn, hb, expensesOf, List.filter_cons, add_assoc]

lemma lookupAmount_addTo (l : List (String × ℚ)) (k : String) (v : ℚ)
    (k' : String) :
    lookupAmount (addTo l k v) k'
      = lookupAmount l k' + (if k = k' then v else 0) := by
  induction l with
  | nil =>
      simp only [addTo, lookupAmount]
      split_ifs <;> simp
  | cons hd tl ih =>
      obtain ⟨k₀, v₀⟩ := hd
      by_cases h0 : k₀ = k
      · simp only [addTo, if_pos h0, lookupAmount]
        by_cases h1 : k₀ = k'
        · rw [if_pos h1, if_pos h1, if_pos (h0.symm.trans h1)]
        · rw [if_neg h1, if_neg h1,
            if_neg (fun he => h1 (h0.trans he)), add_zero]
      · simp only [addTo, if_neg h0, lookupAmount]
        by_cases h1 : k₀ = k'
        · rw [if_pos h1, if_pos h1,
            if_neg (fun he => h0 (h1.trans he.symm)), add_zero]
        · rw [if_neg h1, if_neg h1]
          exact ih

lemma foldl_categories (txns : List NormalizedTransaction) (c : String) :
    ∀ acc : Totals,
      lookupAmount (txns.foldl accumTxn acc).categories c
        = lookupAmount acc.categories c + catExpensesOf txns c := by
  induction txns with
  | nil => intro acc; simp [catExpensesOf]
  | cons t ts ih =>
      intro acc
      rw [List.foldl_cons, ih]
      cases hb : (t.type == "credit") with
      | true => simp [accumTxn, hb, catExpensesOf, List.filter_cons]
      | false =>
          by_cases hc : t.category = c
          · simp only [accumTxn, hb, Bool.false_eq_true, if_false,
              catExpensesOf, List.filter_cons, hc, lookupAmount_addTo]
            simp [catExpensesOf]
            ring
          · simp [accumTxn, hb, catExpensesOf, List.filter_cons, hc,
              lookupAmount_addTo]

lemma foldl_merchants (txns : List NormalizedTransaction) (m : String) :
    ∀ acc : Totals,
      lookupAmount (txns.foldl accumTxn acc).merchants m
        = lookupAmount acc.merchants m + merchExpensesOf txns m := by
  induction txns with
  | nil => intro acc; simp [merchExpensesOf]
  | cons t ts ih =>
      intro acc
      rw [List.foldl_cons, ih]
      cases hb : (t.type == "credit") with
      | true => simp [accumTxn, hb, merchExpensesOf, List.filter_cons]
      | false =>
          by_cases hm : t.merchant = m
          · simp only [accumTxn, hb, Bool.false_eq_true, if_false,
              merchExpensesOf, List.filter_cons, hm, lookupAmount_addTo]
            simp [merchExpensesOf]
            ring
          · simp [accumTxn, hb, merchExpensesOf, List.filter_cons, hm,
              lookupAmount_addTo]

lemma scanLoop_count_le {α : Type} (table : ScanTable α) :
    ∀ (fuel : Nat) (resp : ScanResponse α) (acc : List α) (count : Nat),
      count ≤ 100 → (scanLoop table fuel resp acc count).2 ≤ 100 := by
  intro fuel
  induction fuel with
  | zero => intro resp acc count hc; simpa [scanLoop] using hc
  | succ fuel ih =>
      intro resp acc count hc
      rw [scanLoop]
      cases resp.lastEvaluatedKey with
      | none => simpa using hc
      | some k =>
          dsimp only
          by_cases hlt : count < 100
          · rw [if_pos hlt]
            exact ih _ _ _ hlt
          · rw [if_neg hlt]
            simpa using hc

lemma scanLoop_pages {α : Type} (pages : List (List α)) :
    ∀ (fuel i count : Nat) (acc : List α),
      i + 1 ≤ pages.length → pages.length ≤ 100 →
      count + (pages.length - (i + 1)) ≤ 100 →
      pages.length - (i + 1) ≤ fuel →
      scanLoop (tableOfPages pages) fuel
        ⟨pages.getD i [],
          if i + 1 < pages.length then some (i + 1) else none⟩ acc count
        = (acc ++ (pages.drop (i + 1)).flatten,
            count + (pages.length - (i + 1))) := by
  intro fuel
  induction fuel with
  | zero =>
      intro i count acc hi hlen hcount hfuel
      have h0 : pages.length - (i + 1) = 0 := Nat.le_zero.mp hfuel
      have hge : pages.length ≤ i + 1 := by omega
      rw [scanLoop, List.drop_eq_nil_of_le hge, h0]
      simp
  | succ fuel ih =>
      intro i count acc hi hlen hcount hfuel
      by_cases hnext : i + 1 < pages.length
      · have hrem : 1 ≤ pages.length - (i + 1) := by omega
        have hc100 : count < 100 := by omega
        rw [scanLoop]
        dsimp only
        rw [if_pos hnext]
        dsimp only
        rw [if_pos hc100]
        have hstep :
            tableOfPages pages (some (i + 1))
              = ⟨pages.getD (i + 1) [],
                  if (i + 1) + 1 < pages.length then some ((i + 1) + 1)
                  else none⟩ := rfl
        rw [hstep]
        rw [ih (i + 1) (count + 1) (acc ++ pages.getD (i + 1) [])
          (by omega) hlen (by omega) (by omega)]
        have hdrop : pages.drop (i + 1) = pages[i + 1] :: pages.drop (i + 2) :=
          List.drop_eq_getElem_cons hnext
        rw [hdrop, List.flatten_cons, List.getD_eq_getElem pages [] hnext,
          List.append_assoc]
        have hcnt : count + 1 + (pages.length - (i + 2))
            = count + (pages.length - (i + 1)) := by omega
        rw [hcnt]
      · have heq : pages.length = i + 1 := by omega
        have h0 : pages.length - (i + 1) = 0 := by omega
        rw [scanLoop]
        dsimp only
        rw [if_neg hnext, h0, List.drop_eq_nil_of_le (by omega)]
        simp

lemma scanAll_pages {α : Type} (pages : List (List α))
    (h1 : 1 ≤ pages.length) (h100 : pages.length ≤ 100) :
    scanAll (tableOfPages pages) = (pages.flatten, pages.length) := by
  have hinit :
      tableOfPages pages none
        = ⟨pages.getD 0 [], if 0 + 1 < pages.length then some (0 + 1) else none⟩ :=
    rfl
  rw [scanAll, hinit]
  rw [scanLoop_pages pages 100 0 1 (pages.getD 0 []) (by omega) h100
    (by omega) (by omega)]
  have hdrop : pages.drop 0 = pages[0] :: pages.drop 1 :=
    List.drop_eq_getElem_cons (by omega)
  have hjoin : pages.flatten = pages[0] ++ (pages.drop 1).flatten := by
    conv_lhs => rw [show pages = pages.drop 0 from rfl, hdrop]
    rw [List.flatten_cons]
  rw [hjoin, List.getD_eq_getElem pages [] (by omega)]
  have : 1 + (pages.length - (0 + 1)) = pages.length := by omega
  rw [this]

/-! Claim theorems. -/

set_option maxRecDepth 100000

/-- C1, counterexample: a record of the target month with no category field
and no merchant field at all is accepted by validation (the missing fields
default to Unknown) and becomes part of the filtered set, not excluded as
the claim states. -/
theorem c1_missing_fields_included :
    extract_month_from_date (some "2024-01-15") = some "2024-01" ∧
    normalizeRecord "2024-01"
        ⟨some "2024-01-15", some "100", some "debit", none, none, some "g", none⟩
      = some ⟨"2024-01-15", 100, "debit", "Unknown", "Unknown", "g", "Unknown"⟩ ∧
    filterMonthTransactions
        [⟨some "2024-01-15", some "100", some "debit", none, none, some "g", none⟩]
        "2024-01" ≠ [] := by
  with_unfolding_all decide

/-- C1, amended: a month-matching record enters the filtered set iff its
date is non-empty, its parsed amount is non-zero, and its category and
merchant are non-empty after defaulting an absent field to Unknown — so a
record lacking the category or merchant field entirely is included, and
only a present-but-empty category or merchant excludes it. -/
theorem c1_validation_amended :
    ∀ (item : RawRecord) (target : String),
      extract_month_from_date item.date = some target →
      filterMonthTransactions [item] target
          = (normalizeRecord target item).toList ∧
      ((normalizeRecord target item).isSome ↔
        (item.date.getD "" ≠ "" ∧ parse_amount item.amount ≠ 0 ∧
         item.category.getD "Unknown" ≠ "" ∧ item.merchant.getD "Unknown" ≠ "")) := by
  intro item target hm
  constructor
  · unfold filterMonthTransactions
    cases hn : normalizeRecord target item <;>
      simp [List.filterMap_cons, hn]
  · unfold normalizeRecord
    rw [hm]
    dsimp only
    rw [if_neg (by simp : ¬ target ≠ target)]
    by_cases hg : item.date.getD "" = "" ∨ parse_amount item.amount = 0 ∨
        item.category.getD "Unknown" = "" ∨ item.merchant.getD "Unknown" = ""
    · rw [if_pos hg]
      simp only [Option.isSome_none, Bool.false_eq_true, false_iff]
      intro hc
      rcases hg with h | h | h | h
      · exact hc.1 h
      · exact hc.2.1 h
      · exact hc.2.2.1 h
      · exact hc.2.2.2 h
    · rw [if_neg hg]
      simp only [Option.isSome_some, true_iff]
      push_neg at hg
      exact hg

/-- C1, witness: the amended theorem applied to a concrete fully-populated
record of the target month. -/
theorem c1_validation_witness :
    filterMonthTransactions
        [⟨some "2024-01-15", some "100", some "debit", some "Food", some "Shop",
          some "g", some "card"⟩] "2024-01"
      = (normalizeRecord "2024-01"
          ⟨some "2024-01-15", some "100", some "debit", some "Food", some "Shop",
            some "g", some "card"⟩).toList ∧
    ((normalizeRecord "2024-01"
        ⟨some "2024-01-15", some "100", some "debit", some "Food", some "Shop",
          some "g", some "card"⟩).isSome ↔
      ((some "2024-01-15" : Option String).getD "" ≠ "" ∧
       parse_amount (some "100") ≠ 0 ∧
       (some "Food" : Option String).getD "Unknown" ≠ "" ∧
       (some "Shop" : Option String).getD "Unknown" ≠ "")) :=
  c1_validation_amended
    ⟨some "2024-01-15", some "100", some "debit", some "Food", some "Shop",
      some "g", some "card"⟩ "2024-01" (by decide)

/-- C2, counterexample: a credit transaction whose raw amount carries a
leading minus sign contributes its signed value to total_income, not its
absolute magnitude, so total_income is -50 where the claim demands 50. -/
theorem c2_income_not_magnitude :
    (generate_monthly_report
        [⟨some "2024-01-25", some "-50", some "credit", some "Salary",
          some "Employer", some "s", some "transfer"⟩] "2024-01").map
      (fun s => s.total_income) = some (-50) ∧ ((-50 : ℚ) ≠ 50) := by
  with_unfolding_all decide

/-- C2, amended: total_income is the sum of the signed amounts of credit
transactions (no absolute value is applied to income), while
total_expenses and the per-category and per-merchant running totals
accumulate the absolute magnitudes of the non-credit transactions. -/
theorem c2_totals_amended :
    (∀ txns : List NormalizedTransaction,
        (computeTotals txns).total_income = incomeOf txns) ∧
    (∀ txns : List NormalizedTransaction,
        (computeTotals txns).total_expenses = expensesOf txns) ∧
    (∀ (txns : List NormalizedTransaction) (c : String),
        lookupAmount (computeTotals txns).categories c = catExpensesOf txns c) ∧
    (∀ (txns : List NormalizedTransaction) (m : String),
        lookupAmount (computeTotals txns).merchants m = merchExpensesOf txns m) ∧
    (∀ (items : List RawRecord) (month : String) (s : MonthlySummary),
        generate_monthly_report items month = some s →
        s.total_income = incomeOf s.transactions ∧
        s.total_expenses = expensesOf s.transactions) := by
  have hI : ∀ txns : List NormalizedTransaction,
      (computeTotals txns).total_income = incomeOf txns := by
    intro txns
    unfold computeTotals
    rw [foldl_income]
    simp
  have hE : ∀ txns : List NormalizedTransaction,
      (computeTotals txns).total_expenses = expensesOf txns := by
    intro txns
    unfold computeTotals
    rw [foldl_expenses]
    simp
  refine ⟨hI, hE, ?_, ?_, ?_⟩
  · intro txns c
    unfold computeTotals
    rw [foldl_categories]
    simp [lookupAmount]
  · intro txns m
    unfold computeTotals
    rw [foldl_merchants]
    simp [lookupAmount]
  · intro items month s h
    obtain ⟨ht, hti, hte, _⟩ := gen_fields h
    exact ⟨by rw [hti, ht, hI], by rw [hte, ht, hE]⟩

/-- C2, witness: the summation conjunct of the amended theorem applied to
the summary produced from one concrete debit record. -/
theorem c2_totals_witness :
    (⟨"2024-01", 1, 0, 100, 0 - 100, [("Food", 100)], [("Shop", 100)],
        [⟨"2024-01-15", 100, "debit", "Food", "Shop", "g", "card"⟩]⟩ :
        MonthlySummary).total_income
      = incomeOf (⟨"2024-01", 1, 0, 100, 0 - 100, [("Food", 100)],
          [("Shop", 100)],
          [⟨"2024-01-15", 100, "debit", "Food", "Shop", "g", "card"⟩]⟩ :
          MonthlySummary).transactions ∧
    (⟨"2024-01", 1, 0, 100, 0 - 100, [("Food", 100)], [("Shop", 100)],
        [⟨"2024-01-15", 100, "debit", "Food", "Shop", "g", "card"⟩]⟩ :
        MonthlySummary).total_expenses
      = expensesOf (⟨"2024-01", 1, 0, 100, 0 - 100, [("Food", 100)],
          [("Shop", 100)],
          [⟨"2024-01-15", 100, "debit", "Food", "Shop", "g", "card"⟩]⟩ :
          MonthlySummary).transactions :=
  c2_totals_amended.2.2.2.2
    [⟨some "2024-01-15", some "100", some "debit", some "Food", some "Shop",
      some "g", some "card"⟩] "2024-01" _ (by with_unfolding_all decide)

/-- C3, counterexample: a validated record whose raw amount string carries
a leading minus sign yields a NormalizedTransaction with a negative amount
field, refuting the non-negativity claim. -/
theorem c3_negative_amount :
    (generate_monthly_report
        [⟨some "2024-01-20", some "-100", some "debit", some "Food", some "Shop",
          some "g", some "card"⟩] "2024-01").map
      (fun s => s.transactions.map (fun t => t.amount)) = some [-100] ∧
    ¬ (0 : ℚ) ≤ -100 := by
  with_unfolding_all decide

/-- C3, amended: every NormalizedTransaction produced by the aggregation
has a non-zero amount equal to the parsed raw amount — validation rules
out zero but not negative values, so the sign of the raw string survives
into the amount field. -/
theorem c3_amount_nonzero :
    ∀ (items : List RawRecord) (month : String) (s : MonthlySummary)
      (t : NormalizedTransaction),
      generate_monthly_report items month = some s →
      t ∈ s.transactions → t.amount ≠ 0 := by
  intro items month s t h ht
  rw [(gen_fields h).1] at ht
  unfold filterMonthTransactions at ht
  obtain ⟨item, _, hn⟩ := List.mem_filterMap.mp ht
  exact (normalizeRecord_some hn).2

/-- C3, witness: the amended theorem applied to the transaction produced
from one concrete debit record. -/
theorem c3_amount_nonzero_witness :
    (⟨"2024-01-15", 100, "debit", "Food", "Shop", "g", "card"⟩ :
      NormalizedTransaction).amount ≠ 0 :=
  c3_amount_nonzero
    [⟨some "2024-01-15", some "100", some "debit", some "Food", some "Shop",
      some "g", some "card"⟩] "2024-01"
    ⟨"2024-01", 1, 0, 100, 0 - 100, [("Food", 100)], [("Shop", 100)],
      [⟨"2024-01-15", 100, "debit", "Food", "Shop", "g", "card"⟩]⟩
    ⟨"2024-01-15", 100, "debit", "Food", "Shop", "g", "card"⟩
    (by with_unfolding_all decide) (by with_unfolding_all decide)

/-- C4: whenever the aggregation produces a summary (the filtered set was
non-empty), net_income equals total_income minus total_expenses exactly. -/
theorem c4_net_income_invariant :
    ∀ (items : List RawRecord) (month : String) (s : MonthlySummary),
      generate_monthly_report items month = some s →
      s.net_income = s.total_income - s.total_expenses := by
  intro items month s h
  exact (gen_fields h).2.2.2

/-- C4, witness: the invariant at the summary produced from one concrete
debit record. -/
theorem c4_net_income_witness :
    (⟨"2024-01", 1, 0, 100, 0 - 100, [("Food", 100)], [("Shop", 100)],
        [⟨"2024-01-15", 100, "debit", "Food", "Shop", "g", "card"⟩]⟩ :
        MonthlySummary).net_income
      = (⟨"2024-01", 1, 0, 100, 0 - 100, [("Food", 100)], [("Shop", 100)],
          [⟨"2024-01-15", 100, "debit", "Food", "Shop", "g", "card"⟩]⟩ :
          MonthlySummary).total_income
        - (⟨"2024-01", 1, 0, 100, 0 - 100, [("Food", 100)], [("Shop", 100)],
            [⟨"2024-01-15", 100, "debit", "Food", "Shop", "g", "card"⟩]⟩ :
            MonthlySummary).total_expenses :=
  c4_net_income_invariant
    [⟨some "2024-01-15", some "100", some "debit", some "Food", some "Shop",
      some "g", some "card"⟩] "2024-01" _ (by with_unfolding_all decide)

/-- C5: the date-month extractor returns none for missing and empty input,
maps the claimed examples (including the leap day and the two ambiguous
slash dates, resolved by pattern order) to their canonical months, returns
the month of the first matching pattern, and returns none when every
pattern in the ordered format list fails. -/
theorem c5_date_month_extractor :
    extract_month_from_date none = none ∧
    extract_month_from_date (some "") = none ∧
    extract_month_from_date (some "2024-02-29") = some "2024-02" ∧
    extract_month_from_date (some "15/01/2024") = some "2024-01" ∧
    extract_month_from_date (some "01/15/2024") = some "2024-01" ∧
    (∀ (s : String) (d : SimpleDate), s ≠ "" →
        strptimeDate ⟨DateShape.ymd, '-'⟩ s = some d →
        extract_month_from_date (some s) = some (monthKey d)) ∧
    (∀ s : String, (∀ fmt ∈ date_formats, strptimeDate fmt s = none) →
        extract_month_from_date (some s) = none) := by
  refine ⟨by decide, by decide, by decide, by decide, by decide, ?_, ?_⟩
  · intro s d hs h
    unfold extract_month_from_date
    dsimp only
    rw [if_neg hs]
    simp [date_formats, List.findSome?_cons, h]
  · intro s h
    by_cases hs : s = ""
    · subst hs
      rfl
    · have h1 := h ⟨DateShape.ymd, '-'⟩ (by simp [date_formats])
      have h2 := h ⟨DateShape.dmy, '/'⟩ (by simp [date_formats])
      have h3 := h ⟨DateShape.mdy, '/'⟩ (by simp [date_formats])
      have h4 := h ⟨DateShape.ymd, '/'⟩ (by simp [date_formats])
      have h5 := h ⟨DateShape.dmy, '-'⟩ (by simp [date_formats])
      have h6 := h ⟨DateShape.mdy, '-'⟩ (by simp [date_formats])
      simp [extract_month_from_date, hs, date_formats, List.findSome?_cons,
        h1, h2, h3, h4, h5, h6]

/-- C5, witness: the first-pattern conjunct evaluated at a concrete ISO
date, and the all-fail conjunct at a concrete unparseable string. -/
theorem c5_date_month_witness :
    extract_month_from_date (some "2024-03-05")
      = some (monthKey ⟨2024, 3, 5⟩) ∧
    extract_month_from_date (some "not a date") = none :=
  ⟨c5_date_month_extractor.2.2.2.2.2.1 "2024-03-05" ⟨2024, 3, 5⟩
      (by decide) (by decide),
    c5_date_month_extractor.2.2.2.2.2.2 "not a date" (by decide)⟩

/-- C6: the amount parser returns 0 for missing, empty and unconvertible
input, strips each of the four currency symbols and comma separators
before conversion on concrete magnitudes, and returns 0 whenever the
conversion of the stripped string fails. -/
theorem c6_amount_parse :
    parse_amount none = 0 ∧
    parse_amount (some "") = 0 ∧
    parse_amount (some "invalid") = 0 ∧
    parse_amount (some "₦1,234.50") = mkRat 2469 2 ∧
    parse_amount (some "$2,000") = 2000 ∧
    parse_amount (some "£1,000") = 1000 ∧
    parse_amount (some "€25.50") = mkRat 51 2 ∧
    (∀ s : String, s ≠ "" → pyFloat (stripCurrency s) = none →
      parse_amount (some s) = 0) := by
  refine ⟨by decide, by decide, by decide, by decide, by decide, by decide,
    by decide, ?_⟩
  intro s hs h
  unfold parse_amount
  dsimp only
  rw [if_neg hs, h]

/-- C6, witness: the failure conjunct evaluated at a concrete alphanumeric
string that cannot be converted. -/
theorem c6_amount_parse_witness : parse_amount (some "abc123def") = 0 :=
  c6_amount_parse.2.2.2.2.2.2.2 "abc123def" (by decide) (by decide)

/-- C7: every scan makes at most 100 page requests; a finite page chain of
at most 100 pages is accumulated completely, in first-page-then-later-pages
order, with exactly one request per page; the spec exemplar of two pages
(the second without a continuation token) yields both pages in order; and
an endless token chain stops at the 100-request ceiling with the partial
data returned and the warning flag set rather than an error. -/
theorem c7_pagination_scan :
    (∀ (α : Type) (table : ScanTable α), (scanAll table).2 ≤ 100) ∧
    (∀ (α : Type) (pages : List (List α)),
        1 ≤ pages.length → pages.length ≤ 100 →
        scanAll (tableOfPages pages) = (pages.flatten, pages.length)) ∧
    scanAll (tableOfPages [[1, 2], [3]]) = ([1, 2, 3], 2) ∧
    scanAll endlessTable = (List.replicate 100 7, 100) ∧
    scanWarning endlessTable = true := by
  refine ⟨?_, ?_, by decide, by decide, by decide⟩
  · intro α table
    exact scanLoop_count_le table 100 (table none) (table none).items 1 (by omega)
  · intro α pages h1 h100
    exact scanAll_pages pages h1 h100

/-- C7, witness: the complete-accumulation conjunct applied to a concrete
two-page table. -/
theorem c7_pagination_witness :
    scanAll (tableOfPages [[5], [6]]) = ([[5], [6]].flatten, [[5], [6]].length) :=
  c7_pagination_scan.2.1 Nat [[5], [6]] (by decide) (by decide)

/-- C8: when the filtered set for the target month is empty the run
produces no summary and writes no file, returning as a no-op. -/
theorem c8_empty_month_noop :
    ∀ (items : List RawRecord) (month : String),
      filterMonthTransactions items month = [] →
      generate_monthly_report items month = none ∧
      generatedFiles items month = [] := by
  intro items month h
  have hg : generate_monthly_report items month = none := by
    unfold generate_monthly_report
    rw [if_pos h]
  refine ⟨hg, ?_⟩
  unfold generatedFiles
  rw [hg]

/-- C8, witness: a January record aggregated for February produces no
summary and no file. -/
theorem c8_empty_month_witness :
    generate_monthly_report
        [⟨some "2024-01-15", some "100", some "debit", some "Food", some "Shop",
          some "g", some "card"⟩] "2024-02" = none ∧
    generatedFiles
        [⟨some "2024-01-15", some "100", some "debit", some "Food", some "Shop",
          some "g", some "card"⟩] "2024-02" = [] :=
  c8_empty_month_noop
    [⟨some "2024-01-15", some "100", some "debit", some "Food", some "Shop",
      some "g", some "card"⟩] "2024-02" (by decide)

/-- C9, counterexample: with no existing directories, creating the nested
output directory fails with FileNotFoundError because its parent is not
created for it, refuting the claim that parent directories are created as
needed. -/
theorem c9_missing_parent_error :
    createOutputDir [] ["a", "b"] = Except.error "FileNotFoundError" := rfl

/-- C9, amended: the output directory itself is created when absent and
accepted when present (exist_ok), but only when its parent already exists
or it is a root-level directory; a missing parent raises FileNotFoundError
instead of being created. -/
theorem c9_mkdir_semantics :
    ∀ (fs : FsState) (d : List String),
      (d ∈ fs → createOutputDir fs d = Except.ok fs) ∧
      (d ∉ fs → d.dropLast ∈ fs ∨ d.dropLast = [] →
        createOutputDir fs d = Except.ok (d :: fs)) ∧
      (d ∉ fs → d.dropLast ∉ fs → d.dropLast ≠ [] →
        createOutputDir fs d = Except.error "FileNotFoundError") := by
  intro fs d
  refine ⟨fun h => ?_, fun h1 h2 => ?_, fun h1 h2 h3 => ?_⟩
  · unfold createOutputDir
    rw [if_pos h]
  · unfold createOutputDir
    rw [if_neg h1, if_pos h2]
  · unfold createOutputDir
    rw [if_neg h1, if_neg (not_or.mpr ⟨h2, h3⟩)]

/-- C9, witness: the creation conjunct applied to a concrete filesystem in
which the parent directory exists. -/
theorem c9_mkdir_witness :
    createOutputDir [["a"]] ["a", "b"] = Except.ok [["a", "b"], ["a"]] :=
  (c9_mkdir_semantics [["a"]] ["a", "b"]).2.1 (by decide) (by decide)

/-- C10: the overall summary computation divides by the number of months
before the period branch runs, so the empty mapping raises
ZeroDivisionError and produces no document, although the period branch by
itself would render the no-data label; a singleton mapping succeeds. -/
theorem c10_overall_empty_division :
    generate_overall_pdf_summary [] = Except.error "ZeroDivisionError" ∧
    periodOf [] = Except.ok "No data available" ∧
    generate_overall_pdf_summary [("2024-01", ⟨10, 4⟩)]
      = Except.ok ⟨1, 10, 4, 10, 4, 6, "January 2024 to January 2024"⟩ := by
  refine ⟨rfl, rfl, ?_⟩
  with_unfolding_all decide

end Pennywise
